import Mathlib

/-!
# Verification of the `kpi_performance` skill adapter

A shallow embedding of `src/kpi_performance.py`: the skill handler
`kpi_performance` and its helper `render_layout`.  External collaborators
(the `ar_analytics` engine, the jinja2 template library, the LLM client
`ArUtils.get_llm_response`, the table-variable builder
`get_table_layout_vars_kpi` and the layout engine `wire_layout`) are opaque
in the source, so they are function parameters of the embedded definitions;
fallible collaborators return `Except String`.  Tabular data is embedded as
lists of rows, a row being a list of named string cells; Python dictionaries
that the adapter iterates over (result tables, footnotes) become association
lists in insertion order.
-/

/-- A dataframe row: named columns to cell values. -/
abbrev Row := List (String × String)

/-- A dataframe: an ordered list of rows. -/
abbrev Table := List Row

/-- Python truthiness of a string: `False` exactly for the empty string. -/
def pyTruthy (s : String) : Bool := s != ""

/-- Python truthiness of an optional string (`None` or a string value):
`None` and the empty string are falsy. -/
def pyTruthyOpt : Option String → Bool
  | none => false
  | some s => pyTruthy s

/-- A follow-up suggestion dictionary returned by the engine's
`get_suggestions`; `f.get("label")` and `f.get("question")` may be absent. -/
structure Suggestion where
  label : Option String
  question : Option String
deriving DecidableEq, Repr

/-- `skill_framework.SuggestedQuestion(label=..., question=...)`. -/
structure SuggestedQuestion where
  label : Option String
  question : Option String
deriving DecidableEq, Repr

/-- `skill_framework.ParameterDisplayDescription(key=..., value=...)`. -/
structure ParameterDisplayDescription where
  key : String
  value : String
deriving DecidableEq, Repr

/-- `skill_framework.skills.ExportData(name=..., data=...)`. -/
structure ExportData where
  name : String
  data : Table
deriving DecidableEq, Repr

/-- The viz-layout value threaded through the loop of `render_layout`.
`json.loads` turns the raw JSON string into a parsed document; the embedding
tags the string instead of parsing it, since only the str-vs-parsed
distinction matters to the adapter. -/
inductive Layout where
  | raw (s : String)
  | parsed (s : String)
deriving DecidableEq, Repr

/-- Python `json.loads`: succeeds on a string, raises `TypeRror`-style when
handed an already-parsed document (as the stdlib does for a `dict`). -/
def json_loads : Layout → Except String Layout
  | .raw s => Except.ok (Layout.parsed s)
  | .parsed _ => Except.error "TypeError: the JSON object must be str, bytes or bytearray, not dict"

/-- The `general_vars` dictionary built in `render_layout`. -/
structure GeneralVars where
  headline : String
  sub_headline : String
  hide_growth_warning : Bool
  exec_summary : String
  warning : String
deriving DecidableEq, Repr

/-- The per-table variables: the output of the external
`get_table_layout_vars_kpi` plus the `hide_footer` / `footer` keys the
adapter adds. -/
structure TableVars where
  base : List (String × String)
  hide_footer : Bool
  footer : String
deriving DecidableEq, Repr

/-- The merged dictionary `{**general_vars, **table_vars}` handed to
`wire_layout`; the two key sets are disjoint, so the merge is a pair. -/
structure MergedVars where
  general : GeneralVars
  table : TableVars
deriving DecidableEq, Repr

/-- `skill_framework.SkillVisualization(title=..., layout=...)`; `V` is the
opaque rendered-layout type produced by the external `wire_layout`. -/
structure SkillVisualization (V : Type) where
  title : String
  layout : V
deriving DecidableEq, Repr

/-- The fields of the `SkillOutput` constructed at the end of
`kpi_performance` (the suppressed `narrative=None` field included). -/
structure SkillOutput (V : Type) where
  final_prompt : String
  narrative : Option String
  visualizations : List (SkillVisualization V)
  parameter_display_descriptions : List ParameterDisplayDescription
  followup_questions : List SuggestedQuestion
  export_data : List ExportData
deriving DecidableEq, Repr

/-- Everything the adapter reads from the external analysis engine in one
invocation: the primary result `df` of `run_from_env`, the display `tables`
and `footnotes` of `get_display_tables`, the parameter display mapping, the
notes dataframe `df_notes`, the suggestions of `get_suggestions`, the
`warning_message`, `title`, `subtitle` and `dimensions` attributes. -/
structure EngineResult where
  df : Table
  tables : List (String × Table)
  footnotes : List (String × String)
  param_display : List (String × String)
  df_notes : Table
  suggestions : List Suggestion
  warning_message : String
  title : String
  subtitle : String
  dimensions : List String
deriving DecidableEq, Repr

/-- The skill arguments `kpi_performance` itself reads (the remaining
declared parameters flow untouched into the engine environment). -/
structure Params where
  metrics : List String
  breakouts : List String
  growth_type : String
  limit_n : Nat
  max_prompt : String
  insight_prompt : String
  table_viz_layout : String
deriving DecidableEq, Repr

/-- Default of the `limit_n` skill parameter (`default_value=10`). -/
def limit_n_default : Nat := 10

/-- Modelled from the spec: `limit_facts_to_top_n` is a method of the
external `ar_analytics.KPIPerformance` object, absent from `src/`.  Spec
4.1 (Fact Limiter): first `top_n` rows in order, plus a note stating how
many rows were omitted, or no note if the table already fit. -/
def limit_facts_to_top_n (df : Table) (top_n : Nat) : Table × Option String :=
  if df.length ≤ top_n then (df, none)
  else (df.take top_n, some (toString (df.length - top_n) ++ " rows omitted"))

/-- `first_table = list(tables.values())[0] if tables else df`. -/
def first_table (er : EngineResult) : Table :=
  match er.tables with
  | [] => er.df
  | nt :: _ => nt.2

/-- The truncated facts dataframe: `limit_facts_to_top_n(df=first_table,
top_n=5)` — the row bound is the hardcoded literal `5` of the source. -/
def facts_df (er : EngineResult) : Table :=
  (limit_facts_to_top_n (first_table er) 5).1

/-- The `facts_limitation_note` component of the same call. -/
def facts_note (er : EngineResult) : Option String :=
  (limit_facts_to_top_n (first_table er) 5).2

/-- `insights_dfs = [env.kpi_performance.df_notes, facts_df]`. -/
def facts_for_prompt (er : EngineResult) : List Table :=
  [er.df_notes, facts_df er]

/-- The warning recombination of `kpi_performance`: append the facts
limitation note to the engine warning when the note is truthy. -/
def combined_warning (warning_message : String) (note : Option String) : String :=
  if pyTruthyOpt note then
    if pyTruthy warning_message then warning_message ++ " " ++ note.getD ""
    else note.getD ""
  else warning_message

/-- The two jinja-rendered prompt strings of `render_layout`:
`(insight_template, max_response_prompt)`.  `jinja` is the opaque
`jinja2.Template(...).render(facts=facts)` call; `to_dict(orient='records')`
is the identity of this embedding, a dataframe already being its row list. -/
def rendered_prompts (jinja : String → List Table → String)
    (insights_dfs : List Table) (max_prompt insight_prompt : String) :
    String × String :=
  (jinja insight_prompt (insights_dfs.map (fun i_df => i_df)),
   jinja max_prompt (insights_dfs.map (fun i_df => i_df)))

/-- The `general_vars` dictionary: defaulted headline and sub-headline,
growth-warning visibility, narrative with its fallback, warning text. -/
def mkGeneralVars (title subtitle warnings insights : String) : GeneralVars :=
  { headline := if pyTruthy title then title else "Total"
    sub_headline := if pyTruthy subtitle then subtitle else "Trend Analysis"
    hide_growth_warning := if pyTruthy warnings then false else true
    exec_summary := if pyTruthy insights then insights else "No Insight."
    warning := warnings }

/-- `table_vars["hide_footer"] = False if dim_note else True`. -/
def hide_footer_of (dim_note : Option String) : Bool :=
  if pyTruthyOpt dim_note then false else true

/-- `table_vars["footer"] = f"{dim_note.strip()}" if dim_note else "No additional info."`. -/
def footer_of (dim_note : Option String) : String :=
  if pyTruthyOpt dim_note then (dim_note.getD "").trim else "No additional info."

/-- The `for name, table in tables.items()` loop of `render_layout`,
threading the reassigned `viz_layout` variable through the iterations and
accumulating `viz_list` and `export_data` in iteration order. -/
def renderLoop {V : Type} (wire_layout : Layout → MergedVars → Except String V)
    (get_table_layout_vars : Table → String → List (String × String))
    (general_vars : GeneralVars) (dim_col_label : String)
    (footnotes : List (String × String)) :
    List (String × Table) → Layout →
    Except String (List (SkillVisualization V) × List (String × Table))
  | [], _ => Except.ok ([], [])
  | (name, table) :: rest, viz_layout => do
    let table_vars := get_table_layout_vars table dim_col_label
    let dim_note : Option String := footnotes.lookup name
    let viz_layout' ← json_loads viz_layout
    let rendered ← wire_layout viz_layout'
      ⟨general_vars, ⟨table_vars, hide_footer_of dim_note, footer_of dim_note⟩⟩
    let (viz_rest, export_rest) ←
      renderLoop wire_layout get_table_layout_vars general_vars dim_col_label
        footnotes rest viz_layout'
    Except.ok (⟨name, rendered⟩ :: viz_rest, (name, table) :: export_rest)

/-- `render_layout(tables, title, subtitle, dim_col_label, insights_dfs,
warnings, footnotes, max_prompt, insight_prompt, viz_layout)`, returning
`(viz_list, insights, max_response_prompt, export_data)`. -/
def render_layout {V : Type} (jinja : String → List Table → String)
    (llm : String → Except String String)
    (get_table_layout_vars : Table → String → List (String × String))
    (wire_layout : Layout → MergedVars → Except String V)
    (tables : List (String × Table)) (title subtitle dim_col_label : String)
    (insights_dfs : List Table) (warnings : String)
    (footnotes : List (String × String))
    (max_prompt insight_prompt viz_layout : String) :
    Except String
      (List (SkillVisualization V) × String × String × List (String × Table)) := do
  let insight_template := (rendered_prompts jinja insights_dfs max_prompt insight_prompt).1
  let max_response_prompt := (rendered_prompts jinja insights_dfs max_prompt insight_prompt).2
  let insights ← llm insight_template
  let general_vars := mkGeneralVars title subtitle warnings insights
  let (viz_list, export_data) ←
    renderLoop wire_layout get_table_layout_vars general_vars dim_col_label
      footnotes tables (Layout.raw viz_layout)
  Except.ok (viz_list, insights, max_response_prompt, export_data)

/-- The followup-question comprehension of the returned `SkillOutput`:
keep a suggestion exactly when `f.get("label")` is truthy. -/
def mkFollowups (followups : List Suggestion) : List SuggestedQuestion :=
  (followups.filter (fun f => pyTruthyOpt f.label)).map
    (fun f => { label := f.label, question := f.question })

/-- The skill handler `kpi_performance(parameters)`.  `engine` bundles the
external analysis-engine invocation (environment setup, `run_from_env`,
`get_display_tables`, `get_suggestions` and attribute reads), any part of
which may raise; `dimensions[0]` raises an `IndexError` when the engine
reports no dimensions, exactly as the subscript does in Python. -/
def kpi_performance {V : Type}
    (engine : Params → Except String EngineResult)
    (jinja : String → List Table → String)
    (llm : String → Except String String)
    (get_table_layout_vars : Table → String → List (String × String))
    (wire_layout : Layout → MergedVars → Except String V)
    (parameters : Params) : Except String (SkillOutput V) := do
  let er ← engine parameters
  let param_info := er.param_display.map
    (fun kv => ParameterDisplayDescription.mk kv.1 kv.2)
  let insights_dfs := facts_for_prompt er
  let followups := er.suggestions
  let warning_message := combined_warning er.warning_message (facts_note er)
  let dim0 ← match er.dimensions with
    | [] => Except.error "IndexError: list index out of range"
    | d :: _ => Except.ok d
  let (viz, _insights, final_prompt, export_data) ←
    render_layout jinja llm get_table_layout_vars wire_layout er.tables
      er.title er.subtitle dim0 insights_dfs warning_message er.footnotes
      parameters.max_prompt parameters.insight_prompt parameters.table_viz_layout
  Except.ok
    { final_prompt := final_prompt
      narrative := none
      visualizations := viz
      parameter_display_descriptions := param_info
      followup_questions := mkFollowups followups
      export_data := export_data.map (fun nd => ExportData.mk nd.1 nd.2) }

/-! ## Concrete instantiations of the opaque collaborators

Fixtures for the end-to-end scenarios: a deterministic stand-in for each
external collaborator, and the 5-row `Spend` by `Region` table of the
spec's end-to-end scenario. -/

/-- A concrete row of the scenario table. -/
def mkRow (i : Nat) : Row :=
  [("Region", "R" ++ toString i), ("Spend", toString (100 * i))]

/-- The 5-row mock result table of the end-to-end scenario. -/
def rows5 : Table := [mkRow 1, mkRow 2, mkRow 3, mkRow 4, mkRow 5]

/-- A 6-row table, one row beyond the hardcoded facts bound. -/
def rows6 : Table := rows5 ++ [mkRow 6]

/-- Stand-in jinja renderer: an injective packaging of template and facts. -/
def jinja_render (tpl : String) (facts : List Table) : String :=
  tpl ++ "||" ++ toString facts

/-- Stand-in LLM client echoing its prompt back. -/
def echoLLM : String → Except String String := fun s => Except.ok s

/-- Stand-in `get_table_layout_vars_kpi` producing no variables. -/
def noTableVars : Table → String → List (String × String) := fun _ _ => []

/-- Stand-in `wire_layout` that records its two arguments, making the
variables handed to the layout engine observable in the output. -/
def recordWire : Layout → MergedVars → Except String (Layout × MergedVars) :=
  fun l v => Except.ok (l, v)

/-- Engine result of the end-to-end scenario: a single 5-row display
table, no footnotes, no notes, no warning, no suggestions. -/
def er5 : EngineResult :=
  { df := rows5
    tables := [("KPI by Region", rows5)]
    footnotes := []
    param_display := []
    df_notes := []
    suggestions := []
    warning_message := ""
    title := ""
    subtitle := ""
    dimensions := ["Region"] }

/-- Mock engine returning `er5` on every invocation. -/
def engine5 : Params → Except String EngineResult := fun _ => Except.ok er5

/-- The scenario parameters: `metrics=["Spend"], breakouts=["Region"],
growth_type="none", limit_n=2`. -/
def params2 : Params :=
  { metrics := ["Spend"]
    breakouts := ["Region"]
    growth_type := "none"
    limit_n := 2
    max_prompt := "MAXP"
    insight_prompt := "INSP"
    table_viz_layout := "LAYOUT" }

/-- Engine result with no display tables at all. -/
def er_empty : EngineResult := { er5 with tables := [] }

/-- Mock engine returning the table-less result. -/
def engine_empty : Params → Except String EngineResult :=
  fun _ => Except.ok er_empty

/-- Engine result whose first display table has 6 rows (one beyond the
hardcoded facts bound) and whose engine warning is nonempty. -/
def er6 : EngineResult := { er5 with tables := [("T", rows6)], warning_message := "W" }

/-- A suggestion carrying a truthy label. -/
def sugA : Suggestion := ⟨some "A", some "QA"⟩

/-- A suggestion with no label at all. -/
def sugB : Suggestion := ⟨none, some "QB"⟩

/-! ## Helper lemmas -/

lemma pyTruthy_true_iff (s : String) : pyTruthy s = true ↔ s ≠ "" := by
  simp [pyTruthy]

lemma pyTruthy_false_iff (s : String) : pyTruthy s = false ↔ s = "" := by
  simp [pyTruthy]

lemma eq_empty_of_length_zero {a : String} (h : a.length = 0) : a = "" := by
  cases a with
  | mk d =>
    have hd : d = [] := by simpa [String.length] using h
    subst hd
    rfl

lemma append_ne_empty_left {a : String} (b : String) (h : a ≠ "") : a ++ b ≠ "" := by
  intro hc
  have hlen := congrArg String.length hc
  rw [String.length_append] at hlen
  exact h (eq_empty_of_length_zero (by simpa using Nat.eq_zero_of_add_eq_zero_right hlen))

lemma append_ne_empty_right (a : String) {b : String} (h : b ≠ "") : a ++ b ≠ "" := by
  intro hc
  have hlen := congrArg String.length hc
  rw [String.length_append] at hlen
  exact h (eq_empty_of_length_zero (by simpa using Nat.eq_zero_of_add_eq_zero_left hlen))

/-- The fact limiter (modelled from the spec) keeps at most `top_n` rows. -/
lemma limit_facts_length_le (df : Table) (top_n : Nat) :
    (limit_facts_to_top_n df top_n).1.length ≤ top_n := by
  unfold limit_facts_to_top_n
  split
  next h => simpa using h
  next h => simp

/-- Any limitation note the fact limiter emits is a nonempty string. -/
lemma facts_note_ne_empty {er : EngineResult} {nt : String}
    (h : facts_note er = some nt) : nt ≠ "" := by
  unfold facts_note limit_facts_to_top_n at h
  split at h
  · simp at h
  · simp only [Prod.snd, Option.some.injEq] at h
    subst h
    exact append_ne_empty_right _ (by decide)

/-! ## Claim C1 -/

/-- C1 is false on the code: the facts bound is the hardcoded `top_n=5` of
the source, not `limit_n`.  At the end-to-end scenario input (`limit_n = 2`,
a single 5-row table) the facts dataframe handed to the prompt renderer has
all 5 rows — not at most `limit_n = 2` — the limiter emits no limitation
note (so no "3 rows omitted" note exists), and the full 5-row facts list
reaches the final prompt. -/
theorem C1_counterexample :
    params2.limit_n = 2 ∧
    ((facts_for_prompt er5).getD 1 []).length = 5 ∧
    ¬ ((facts_for_prompt er5).getD 1 []).length ≤ params2.limit_n ∧
    facts_note er5 = none ∧
    (kpi_performance engine5 jinja_render echoLLM noTableVars recordWire
        params2).map (fun o => o.final_prompt)
      = Except.ok (jinja_render params2.max_prompt (facts_for_prompt er5)) :=
  ⟨rfl, rfl, by decide, rfl, rfl⟩

/-- C1 amended: in an invocation of `kpi_performance` with `limit_n = 2`
where the engine returns a single 5-row table, the adapter produces one
visualization, an export with the same 5 rows, and a facts list built from
all 5 rows with no limitation note; in general the number of fact rows
passed to the prompt renderer is bounded by the hardcoded constant 5,
independently of the `limit_n` parameter. -/
theorem C1_amended :
    (∀ er : EngineResult, ((facts_for_prompt er).getD 1 []).length ≤ 5) ∧
    (kpi_performance engine5 jinja_render echoLLM noTableVars recordWire
        params2).map (fun o => (o.visualizations.length, o.export_data))
      = Except.ok (1, [ExportData.mk "KPI by Region" rows5]) ∧
    facts_for_prompt er5 = [[], rows5] ∧
    facts_note er5 = none := by
  refine ⟨?_, rfl, rfl, rfl⟩
  intro er
  show (facts_df er).length ≤ 5
  exact limit_facts_length_le (first_table er) 5

/-! ## Claim C2 -/

/-- C2 names a genuine code bug: `viz_layout = json.loads(viz_layout)` sits
inside the per-table loop, so with two or more tables the second iteration
hands the already-parsed layout back to `json.loads`, which raises a
`TypeError` — no visualization list is ever produced.  With exactly one
table the claimed behavior (one visualization per table, export mapping to
the raw table) does hold. -/
theorem C2_json_loads_failing_input :
    render_layout jinja_render echoLLM noTableVars recordWire
        [("A", rows5), ("B", rows5)] "t" "s" "Region" [] "" [] "MP" "IP" "VL"
      = Except.error
          "TypeError: the JSON object must be str, bytes or bytearray, not dict" ∧
    (render_layout jinja_render echoLLM noTableVars recordWire
        [("A", rows5)] "t" "s" "Region" [] "" [] "MP" "IP" "VL").map
        (fun r => (r.1.map (fun v => v.title), r.2.2.2))
      = Except.ok (["A"], [("A", rows5)]) :=
  ⟨rfl, rfl⟩

/-! ## Claim C5 -/

/-- C5 is false on the code: the source does not silently assume `tables`
is non-empty — line 119 reads `list(tables.values())[0] if tables else df`,
so with no tables the adapter falls back to the primary result dataframe
`df`, and the invocation completes normally (zero visualizations, facts
drawn from `df`). -/
theorem C5_counterexample :
    er_empty.tables = [] ∧
    first_table er_empty = er_empty.df ∧
    (kpi_performance engine_empty jinja_render echoLLM noTableVars recordWire
        params2).map (fun o => (o.visualizations, o.final_prompt))
      = Except.ok ([], jinja_render "MAXP" [[], rows5]) :=
  ⟨rfl, rfl, rfl⟩

/-- C5 amended: the selection of the facts source table is total — when the
engine returns no tables the adapter explicitly falls back to the primary
result dataframe `df`, and otherwise it takes the first table in mapping
order. -/
theorem C5_amended (er : EngineResult) :
    (er.tables = [] → first_table er = er.df) ∧
    (∀ name t rest, er.tables = (name, t) :: rest → first_table er = t) := by
  constructor
  · intro h
    simp [first_table, h]
  · intro name t rest h
    simp [first_table, h]

/-- Witness for the amended C5 at the two concrete engine results. -/
theorem C5_amended_witness :
    first_table er_empty = er_empty.df ∧ first_table er5 = rows5 :=
  ⟨(C5_amended er_empty).1 rfl,
   (C5_amended er5).2 "KPI by Region" rows5 [] rfl⟩

/-! ## Claim C3 -/

/-- C3 confirmed: with the warning recombination of `kpi_performance` and
the `general_vars` construction of `render_layout`, the warning-hidden flag
is true exactly when the engine warning is empty and the fact limiter emits
no note; otherwise it is false, and with both present the warning text is
the engine warning, a single space, and the note.  The last conjunct checks
the same `general_vars` is what a produced visualization actually carries
(observed through a recording `wire_layout`). -/
theorem C3_warning_flag (er : EngineResult) (title subtitle ins : String)
    (gv : GeneralVars)
    (hgv : gv = mkGeneralVars title subtitle
      (combined_warning er.warning_message (facts_note er)) ins) :
    (er.warning_message = "" ∧ facts_note er = none →
      gv.hide_growth_warning = true) ∧
    (¬ (er.warning_message = "" ∧ facts_note er = none) →
      gv.hide_growth_warning = false) ∧
    (∀ nt, er.warning_message ≠ "" → facts_note er = some nt →
      gv.warning = er.warning_message ++ " " ++ nt) ∧
    (∀ (jinja : String → List Table → String)
        (gtv : Table → String → List (String × String))
        (name : String) (t : Table) (dim : String) (dfs : List Table)
        (fn : List (String × String)) (mp ip vl : String),
      (render_layout jinja (fun _ => Except.ok ins) gtv recordWire [(name, t)]
          title subtitle dim dfs
          (combined_warning er.warning_message (facts_note er)) fn mp ip vl).map
          (fun r => r.1.map (fun v => v.layout.2.general))
        = Except.ok [gv]) := by
  subst hgv
  refine ⟨?_, ?_, ?_, ?_⟩
  · rintro ⟨h1, h2⟩
    simp [combined_warning, h2, pyTruthyOpt, mkGeneralVars, h1, pyTruthy]
  · intro h
    cases hn : facts_note er with
    | none =>
      have hw : er.warning_message ≠ "" := by tauto
      simp [combined_warning, hn, pyTruthyOpt, mkGeneralVars, pyTruthy_true_iff, hw]
    | some nt =>
      have hne := facts_note_ne_empty hn
      by_cases hw : er.warning_message = ""
      · simp [combined_warning, hn, pyTruthyOpt, pyTruthy, hne, hw, mkGeneralVars]
      · have h2 : pyTruthy er.warning_message = true := (pyTruthy_true_iff _).mpr hw
        have h3 : pyTruthy nt = true := (pyTruthy_true_iff _).mpr hne
        have h4 : er.warning_message ++ " " ++ nt ≠ "" :=
          append_ne_empty_left _ (append_ne_empty_left _ hw)
        simp [combined_warning, hn, pyTruthyOpt, h3, h2, mkGeneralVars,
          (pyTruthy_true_iff _).mpr h4]
  · intro nt hw hn
    have h2 : pyTruthy er.warning_message = true := (pyTruthy_true_iff _).mpr hw
    have h3 : pyTruthy nt = true := (pyTruthy_true_iff _).mpr (facts_note_ne_empty hn)
    simp [combined_warning, hn, pyTruthyOpt, h3, h2, mkGeneralVars]
  · intro jinja gtv name t dim dfs fn mp ip vl
    rfl

/-- Witness for C3: a nonempty engine warning together with a 6-row first
table (which makes the limiter emit "1 rows omitted") concatenates with a
single space. -/
theorem C3_witness :
    (mkGeneralVars "t" "s"
        (combined_warning er6.warning_message (facts_note er6)) "i").warning
      = er6.warning_message ++ " " ++ "1 rows omitted" :=
  (C3_warning_flag er6 "t" "s" "i" _ rfl).2.2.1 "1 rows omitted"
    (by decide) (by decide)

/-! ## Claim C4 -/

/-- C4 confirmed: whenever the LLM client answers the rendered insight
template with the empty string, the `exec_summary` variable carried by the
produced visualization is exactly "No Insight." (observed through a
recording `wire_layout` on a single-table invocation). -/
theorem C4_no_insight_fallback (jinja : String → List Table → String)
    (llm : String → Except String String)
    (gtv : Table → String → List (String × String))
    (name : String) (t : Table) (title subtitle dim warn : String)
    (dfs : List Table) (fn : List (String × String)) (mp ip vl : String)
    (h : llm (rendered_prompts jinja dfs mp ip).1 = Except.ok "") :
    (render_layout jinja llm gtv recordWire [(name, t)] title subtitle dim dfs
        warn fn mp ip vl).map
        (fun r => r.1.map (fun v => v.layout.2.general.exec_summary))
      = Except.ok ["No Insight."] := by
  simp only [render_layout, h]
  rfl

/-- Witness for C4 at a concrete empty-LLM invocation. -/
theorem C4_witness :
    (render_layout jinja_render (fun _ => Except.ok "") noTableVars recordWire
        [("A", rows5)] "t" "s" "Region" [] "w" [] "MP" "IP" "VL").map
        (fun r => r.1.map (fun v => v.layout.2.general.exec_summary))
      = Except.ok ["No Insight."] :=
  C4_no_insight_fallback jinja_render (fun _ => Except.ok "") noTableVars
    "A" rows5 "t" "s" "Region" "w" [] [] "MP" "IP" "VL" rfl

/-! ## Claim C9 -/

/-- C9 confirmed: an empty title renders the headline "Total", an empty
subtitle renders the sub-headline "Trend Analysis", and nonempty values
pass through unchanged; the first conjunct ties the `general_vars`
construction to the variables a produced visualization carries. -/
theorem C9_headline_defaults (jinja : String → List Table → String)
    (llm : String → Except String String)
    (gtv : Table → String → List (String × String))
    (name : String) (t : Table) (title subtitle dim warn : String)
    (dfs : List Table) (fn : List (String × String)) (mp ip vl ins : String)
    (h : llm (rendered_prompts jinja dfs mp ip).1 = Except.ok ins) :
    ((render_layout jinja llm gtv recordWire [(name, t)] title subtitle dim dfs
        warn fn mp ip vl).map
        (fun r => r.1.map (fun v =>
          (v.layout.2.general.headline, v.layout.2.general.sub_headline)))
      = Except.ok [((mkGeneralVars title subtitle warn ins).headline,
                    (mkGeneralVars title subtitle warn ins).sub_headline)]) ∧
    (title = "" → (mkGeneralVars title subtitle warn ins).headline = "Total") ∧
    (title ≠ "" → (mkGeneralVars title subtitle warn ins).headline = title) ∧
    (subtitle = "" →
      (mkGeneralVars title subtitle warn ins).sub_headline = "Trend Analysis") ∧
    (subtitle ≠ "" →
      (mkGeneralVars title subtitle warn ins).sub_headline = subtitle) := by
  refine ⟨?_, ?_, ?_, ?_, ?_⟩
  · simp only [render_layout, h]
    rfl
  · intro ht
    simp [mkGeneralVars, ht, pyTruthy]
  · intro ht
    simp [mkGeneralVars, (pyTruthy_true_iff _).mpr ht]
  · intro hs
    simp [mkGeneralVars, hs, pyTruthy]
  · intro hs
    simp [mkGeneralVars, (pyTruthy_true_iff _).mpr hs]

/-- Witness for C9: empty title and nonempty subtitle at a concrete
invocation. -/
theorem C9_witness :
    (mkGeneralVars "" "Sub" "w" "i").headline = "Total" ∧
    (mkGeneralVars "" "Sub" "w" "i").sub_headline = "Sub" :=
  ⟨(C9_headline_defaults jinja_render echoLLM noTableVars "A" rows5 "" "Sub"
      "Region" "w" [] [] "MP" "IP" "VL" _ rfl).2.1 rfl,
   (C9_headline_defaults jinja_render echoLLM noTableVars "A" rows5 "" "Sub"
      "Region" "w" [] [] "MP" "IP" "VL" _ rfl).2.2.2.2 (by decide)⟩

/-! ## Claim C10 -/

/-- C10 confirmed: a table whose name has no footnote entry, or an empty
one, gets `hide_footer = true` and the footer "No additional info."; a
nonempty footnote gives `hide_footer = false` and the footnote stripped of
surrounding whitespace.  The first conjunct ties the footer variables to
the variables a produced visualization carries. -/
theorem C10_footer_defaults (jinja : String → List Table → String)
    (llm : String → Except String String)
    (gtv : Table → String → List (String × String))
    (name : String) (t : Table) (title subtitle dim warn : String)
    (dfs : List Table) (fn : List (String × String)) (mp ip vl ins : String)
    (h : llm (rendered_prompts jinja dfs mp ip).1 = Except.ok ins) :
    ((render_layout jinja llm gtv recordWire [(name, t)] title subtitle dim dfs
        warn fn mp ip vl).map
        (fun r => r.1.map (fun v =>
          (v.layout.2.table.hide_footer, v.layout.2.table.footer)))
      = Except.ok [(hide_footer_of (fn.lookup name),
                    footer_of (fn.lookup name))]) ∧
    (fn.lookup name = none →
      hide_footer_of (fn.lookup name) = true ∧
      footer_of (fn.lookup name) = "No additional info.") ∧
    (fn.lookup name = some "" →
      hide_footer_of (fn.lookup name) = true ∧
      footer_of (fn.lookup name) = "No additional info.") ∧
    (∀ s, fn.lookup name = some s → s ≠ "" →
      hide_footer_of (fn.lookup name) = false ∧
      footer_of (fn.lookup name) = s.trim) := by
  refine ⟨?_, ?_, ?_, ?_⟩
  · simp only [render_layout, h]
    rfl
  · intro hl
    simp [hide_footer_of, footer_of, hl, pyTruthyOpt]
  · intro hl
    simp [hide_footer_of, footer_of, hl, pyTruthyOpt, pyTruthy]
  · intro s hl hs
    simp [hide_footer_of, footer_of, hl, pyTruthyOpt, (pyTruthy_true_iff _).mpr hs]

/-- Witness for C10: a present nonempty footnote with surrounding
whitespace, at a concrete invocation. -/
theorem C10_witness :
    hide_footer_of ([("A", " note ")].lookup "A") = false ∧
    footer_of ([("A", " note ")].lookup "A") = " note ".trim :=
  (C10_footer_defaults jinja_render echoLLM noTableVars "A" rows5 "t" "s"
      "Region" "w" [] [("A", " note ")] "MP" "IP" "VL" _ rfl).2.2.2
    " note " rfl (by decide)

/-! ## Claim C6 -/

lemma ok_bind {α β : Type} (a : α) (f : α → Except String β) :
    (Except.ok a : Except String α) >>= f = f a := rfl

lemma err_bind {α β : Type} (e : String) (f : α → Except String β) :
    (Except.error e : Except String α) >>= f = Except.error e := rfl

/-- Any successful `render_layout` call returns the jinja-rendered max
prompt as its third component and the LLM's answer to the jinja-rendered
insight template as its second. -/
lemma render_layout_ok_components {V : Type} (jinja : String → List Table → String)
    (llm : String → Except String String)
    (gtv : Table → String → List (String × String))
    (wire : Layout → MergedVars → Except String V)
    (tables : List (String × Table)) (title subtitle dim : String)
    (dfs : List Table) (warn : String) (fn : List (String × String))
    (mp ip vl : String)
    (r : List (SkillVisualization V) × String × String × List (String × Table))
    (h : render_layout jinja llm gtv wire tables title subtitle dim dfs warn
      fn mp ip vl = Except.ok r) :
    r.2.2.1 = (rendered_prompts jinja dfs mp ip).2 ∧
    llm (rendered_prompts jinja dfs mp ip).1 = Except.ok r.2.1 := by
  simp only [render_layout] at h
  cases hl : llm (rendered_prompts jinja dfs mp ip).1 with
  | error e =>
    rw [hl, err_bind] at h
    exact absurd h (by simp)
  | ok ins =>
    rw [hl, ok_bind] at h
    cases hr : renderLoop wire gtv (mkGeneralVars title subtitle warn ins) dim
        fn tables (Layout.raw vl) with
    | error e =>
      rw [hr, err_bind] at h
      exact absurd h (by simp)
    | ok p =>
      rw [hr, ok_bind] at h
      obtain ⟨vizl, ed⟩ := p
      have hr2 : r = (vizl, ins, (rendered_prompts jinja dfs mp ip).2, ed) :=
        (Except.ok.injEq _ _).mp h.symm
      rw [hr2]
      exact ⟨rfl, rfl⟩

/-- C6 confirmed: two successful `render_layout` calls over the same
insights dataframes and the same prompt templates — but arbitrary,
possibly different LLM clients and layout engines — agree on the rendered
`max_response_prompt`, it is the jinja rendering of the max template over
the facts, and each call fed its LLM the identical jinja rendering of the
insight template. -/
theorem C6_prompt_determinism {V₁ V₂ : Type}
    (jinja : String → List Table → String)
    (gtv : Table → String → List (String × String))
    (wire₁ : Layout → MergedVars → Except String V₁)
    (wire₂ : Layout → MergedVars → Except String V₂)
    (llm₁ llm₂ : String → Except String String)
    (tables : List (String × Table)) (title subtitle dim : String)
    (dfs : List Table) (warn : String) (fn : List (String × String))
    (mp ip vl : String)
    (r₁ : List (SkillVisualization V₁) × String × String × List (String × Table))
    (r₂ : List (SkillVisualization V₂) × String × String × List (String × Table))
    (h₁ : render_layout jinja llm₁ gtv wire₁ tables title subtitle dim dfs
      warn fn mp ip vl = Except.ok r₁)
    (h₂ : render_layout jinja llm₂ gtv wire₂ tables title subtitle dim dfs
      warn fn mp ip vl = Except.ok r₂) :
    r₁.2.2.1 = r₂.2.2.1 ∧
    r₁.2.2.1 = (rendered_prompts jinja dfs mp ip).2 ∧
    llm₁ (rendered_prompts jinja dfs mp ip).1 = Except.ok r₁.2.1 ∧
    llm₂ (rendered_prompts jinja dfs mp ip).1 = Except.ok r₂.2.1 := by
  obtain ⟨a₁, b₁⟩ := render_layout_ok_components jinja llm₁ gtv wire₁ tables
    title subtitle dim dfs warn fn mp ip vl r₁ h₁
  obtain ⟨a₂, b₂⟩ := render_layout_ok_components jinja llm₂ gtv wire₂ tables
    title subtitle dim dfs warn fn mp ip vl r₂ h₂
  exact ⟨a₁.trans a₂.symm, a₁, b₁, b₂⟩

/-- Witness for C6: two concrete calls differing only in their LLM client
produce the same max prompt. -/
theorem C6_witness :
    (([], "a", "MP", []) :
        List (SkillVisualization Unit) × String × String × List (String × Table)).2.2.1
      = (([], "b", "MP", []) :
        List (SkillVisualization Unit) × String × String × List (String × Table)).2.2.1 :=
  (C6_prompt_determinism (fun tpl _ => tpl) (fun _ _ => [])
    (fun _ _ => Except.ok ()) (fun _ _ => Except.ok ())
    (fun _ => Except.ok "a") (fun _ => Except.ok "b")
    [] "t" "s" "d" [] "w" [] "MP" "IP" "VL"
    ([], "a", "MP", []) ([], "b", "MP", []) rfl rfl).1

/-! ## Claim C7 -/

/-- C7 confirmed: the adapter installs no handler — an error of the
analysis engine aborts `kpi_performance` with that very error; an error of
the LLM client aborts `render_layout` with that very error; and an error of
the layout engine on the first table aborts `render_layout` with that very
error.  In each case the error value reaches the caller unmodified. -/
theorem C7_error_propagation :
    (∀ (V : Type) (engine : Params → Except String EngineResult)
        (jinja : String → List Table → String)
        (llm : String → Except String String)
        (gtv : Table → String → List (String × String))
        (wire : Layout → MergedVars → Except String V)
        (p : Params) (e : String),
      engine p = Except.error e →
      kpi_performance engine jinja llm gtv wire p = Except.error e) ∧
    (∀ (V : Type) (jinja : String → List Table → String)
        (llm : String → Except String String)
        (gtv : Table → String → List (String × String))
        (wire : Layout → MergedVars → Except String V)
        (tables : List (String × Table)) (title subtitle dim : String)
        (dfs : List Table) (warn : String) (fn : List (String × String))
        (mp ip vl e : String),
      llm (rendered_prompts jinja dfs mp ip).1 = Except.error e →
      render_layout jinja llm gtv wire tables title subtitle dim dfs warn fn
        mp ip vl = Except.error e) ∧
    (∀ (V : Type) (jinja : String → List Table → String)
        (llm : String → Except String String)
        (gtv : Table → String → List (String × String))
        (wire : Layout → MergedVars → Except String V)
        (name : String) (t : Table) (rest : List (String × Table))
        (title subtitle dim : String) (dfs : List Table) (warn : String)
        (fn : List (String × String)) (mp ip vl ins e : String),
      llm (rendered_prompts jinja dfs mp ip).1 = Except.ok ins →
      wire (Layout.parsed vl)
        ⟨mkGeneralVars title subtitle warn ins,
         ⟨gtv t dim, hide_footer_of (fn.lookup name),
          footer_of (fn.lookup name)⟩⟩ = Except.error e →
      render_layout jinja llm gtv wire ((name, t) :: rest) title subtitle dim
        dfs warn fn mp ip vl = Except.error e) := by
  refine ⟨?_, ?_, ?_⟩
  · intro V engine jinja llm gtv wire p e h
    simp only [kpi_performance, h]
    rfl
  · intro V jinja llm gtv wire tables title subtitle dim dfs warn fn mp ip vl e h
    simp only [render_layout, h]
    rfl
  · intro V jinja llm gtv wire name t rest title subtitle dim dfs warn fn mp
      ip vl ins e h₁ h₂
    simp only [render_layout, h₁, ok_bind, renderLoop, json_loads]
    rw [h₂]
    rfl

/-- Witness for C7: a failing engine, a failing LLM client and a failing
layout engine each abort the respective call with their own error. -/
theorem C7_witness :
    kpi_performance (fun _ => Except.error "engine down") jinja_render echoLLM
        noTableVars recordWire params2 = Except.error "engine down" ∧
    render_layout jinja_render (fun _ => Except.error "llm down") noTableVars
        recordWire [] "t" "s" "d" [] "" [] "MP" "IP" "VL"
      = Except.error "llm down" ∧
    render_layout jinja_render echoLLM noTableVars
        (fun _ _ => (Except.error "layout down" : Except String Unit))
        [("A", rows5)] "t" "s" "d" [] "" [] "MP" "IP" "VL"
      = Except.error "layout down" :=
  ⟨C7_error_propagation.1 _ _ jinja_render echoLLM noTableVars recordWire
      params2 "engine down" rfl,
   C7_error_propagation.2.1 _ jinja_render _ noTableVars recordWire
      [] "t" "s" "d" [] "" [] "MP" "IP" "VL" "llm down" rfl,
   C7_error_propagation.2.2 Unit jinja_render echoLLM noTableVars
      (fun _ _ => Except.error "layout down") "A" rows5 [] "t" "s" "d" [] ""
      [] "MP" "IP" "VL" (jinja_render "IP" [] ) "layout down" rfl rfl⟩

/-! ## Claim C8 -/

/-- C8 confirmed: a suggestion contributes a followup question to the
output exactly when its label is present and truthy — every truthy-labelled
suggestion appears (as a `SuggestedQuestion` with its label and question),
and everything appearing stems from a truthy-labelled suggestion, so
label-less and empty-labelled suggestions are dropped. -/
theorem C8_followup_filter (fs : List Suggestion) :
    (∀ f, f ∈ fs → pyTruthyOpt f.label = true →
      SuggestedQuestion.mk f.label f.question ∈ mkFollowups fs) ∧
    (∀ q, q ∈ mkFollowups fs →
      pyTruthyOpt q.label = true ∧
      ∃ f, f ∈ fs ∧ pyTruthyOpt f.label = true ∧
        q = SuggestedQuestion.mk f.label f.question) := by
  constructor
  · intro f hf hl
    simp only [mkFollowups, List.mem_map]
    exact ⟨f, List.mem_filter.mpr ⟨hf, hl⟩, rfl⟩
  · intro q hq
    simp only [mkFollowups, List.mem_map] at hq
    obtain ⟨f, hf, rfl⟩ := hq
    have hm := List.mem_filter.mp hf
    exact ⟨hm.2, f, hm.1, hm.2, rfl⟩

/-- Witness for C8: the truthy-labelled suggestion appears in the output
and everything in the output has a truthy label. -/
theorem C8_witness :
    SuggestedQuestion.mk (some "A") (some "QA") ∈ mkFollowups [sugA, sugB] ∧
    pyTruthyOpt (SuggestedQuestion.mk (some "A") (some "QA")).label = true :=
  ⟨(C8_followup_filter [sugA, sugB]).1 sugA (by simp) rfl,
   ((C8_followup_filter [sugA, sugB]).2
      (SuggestedQuestion.mk (some "A") (some "QA")) (by decide)).1⟩
